import Mathlib

/-!
StockPulse — verification of the Heikin Ashi signal detector, screener and
scheduler.

Shallow embedding, over `ℚ`, of the pure computational core of
`backend/heikin_ashi_signals.py`, `backend/screener_module.py` and
`backend/advanced_scheduler.py`.  Data frames are modelled as lists of rows
(or as a record of the last-row values the code actually reads); values
produced by the external `ta`/`pandas_ta` indicator library (RSI, ATR, EMA)
and the realisations of `np.random.normal` draws are universally quantified
parameters of the embedded functions.
-/

namespace StockPulse

/-- A raw OHLC bar: one row of the price data frame
(columns `Open`, `High`, `Low`, `Close`). -/
structure Bar where
  Open : ℚ
  High : ℚ
  Low : ℚ
  Close : ℚ
deriving DecidableEq, Repr

/-- A derived Heikin Ashi bar: the columns `HA_Open`, `HA_Close`, `HA_High`,
`HA_Low` added by `calculate_heikin_ashi`. -/
structure HABar where
  haOpen : ℚ
  haClose : ℚ
  haHigh : ℚ
  haLow : ℚ
deriving DecidableEq, Repr

/-- Column HA_Close: `(Open + High + Low + Close) / 4`
(heikin_ashi_signals.py line 34). -/
def barHAClose (b : Bar) : ℚ := (b.Open + b.High + b.Low + b.Close) / 4

/-- Build one Heikin Ashi bar from a raw bar and the already-known `HA_Open`:
`HA_High = max(HA_Open, HA_Close, High)`, `HA_Low = min(HA_Open, HA_Close, Low)`
(lines 45–46). -/
def mkHA (ho : ℚ) (b : Bar) : HABar :=
  { haOpen := ho
    haClose := barHAClose b
    haHigh := max (max ho (barHAClose b)) b.High
    haLow := min (min ho (barHAClose b)) b.Low }

/-- The sequential loop of lines 41–42: the `HA_Open` of each bar is
`(prev HA_Open + prev HA_Close) / 2`, threaded through the list. -/
def haGo (ho : ℚ) : List Bar → List HABar
  | [] => []
  | b :: rest => mkHA ho b :: haGo ((ho + barHAClose b) / 2) rest

/-- Function `calculate_heikin_ashi` (lines 27–46): the seed `HA_Open` of the first
bar is `(Open₀ + Close₀) / 2` (line 38). -/
def calculate_heikin_ashi : List Bar → List HABar
  | [] => []
  | b :: rest => haGo ((b.Open + b.Close) / 2) (b :: rest)

/-- Default values used only to totalise list indexing (`List.getD`);
never reached under the stated bounds. -/
def dBar : Bar := ⟨0, 0, 0, 0⟩

/-- Default `HABar` for totalised indexing. -/
def dHA : HABar := ⟨0, 0, 0, 0⟩

theorem haGo_length (ho : ℚ) (bars : List Bar) :
    (haGo ho bars).length = bars.length := by
  induction bars generalizing ho with
  | nil => rfl
  | cons b rest ih => simp [haGo, ih]

theorem calculate_heikin_ashi_length (bars : List Bar) :
    (calculate_heikin_ashi bars).length = bars.length := by
  cases bars with
  | nil => rfl
  | cons b rest => simp [calculate_heikin_ashi, haGo_length]

theorem haGo_getD_haClose (ho : ℚ) (bars : List Bar) :
    ∀ i, i < bars.length →
      ((haGo ho bars).getD i dHA).haClose = barHAClose (bars.getD i dBar) := by
  induction bars generalizing ho with
  | nil => intro i hi; simp at hi
  | cons b rest ih =>
    intro i hi
    cases i with
    | zero => simp [haGo, mkHA]
    | succ j =>
      simp only [haGo, List.getD_cons_succ]
      exact ih _ j (by simpa using hi)

theorem haGo_getD_zero_haOpen (ho : ℚ) (b : Bar) (rest : List Bar) :
    ((haGo ho (b :: rest)).getD 0 dHA).haOpen = ho := by
  simp [haGo, mkHA]

theorem haGo_getD_succ_haOpen (ho : ℚ) (bars : List Bar) :
    ∀ i, i + 1 < bars.length →
      ((haGo ho bars).getD (i + 1) dHA).haOpen =
        (((haGo ho bars).getD i dHA).haOpen + ((haGo ho bars).getD i dHA).haClose) / 2 := by
  induction bars generalizing ho with
  | nil => intro i hi; simp at hi
  | cons b rest ih =>
    intro i hi
    cases i with
    | zero =>
      cases rest with
      | nil => simp at hi
      | cons b2 rest2 => simp [haGo, mkHA]
    | succ j =>
      simp only [haGo, List.getD_cons_succ]
      exact ih _ j (by simpa using hi)

theorem haGo_getD_haHighLow (ho : ℚ) (bars : List Bar) :
    ∀ i, i < bars.length →
      ((haGo ho bars).getD i dHA).haHigh =
        max (max ((haGo ho bars).getD i dHA).haOpen ((haGo ho bars).getD i dHA).haClose)
          (bars.getD i dBar).High ∧
      ((haGo ho bars).getD i dHA).haLow =
        min (min ((haGo ho bars).getD i dHA).haOpen ((haGo ho bars).getD i dHA).haClose)
          (bars.getD i dBar).Low := by
  induction bars generalizing ho with
  | nil => intro i hi; simp at hi
  | cons b rest ih =>
    intro i hi
    cases i with
    | zero => simp [haGo, mkHA]
    | succ j =>
      simp only [haGo, List.getD_cons_succ]
      exact ih _ j (by simpa using hi)

/-- C1: for every non-empty bar sequence, `calculate_heikin_ashi` returns one
derived bar per input bar with, at every index `i`:
`ha_close[i] = (open[i]+high[i]+low[i]+close[i])/4`;
`ha_open[0] = (open[0]+close[0])/2` and, for `i ≥ 1`,
`ha_open[i] = (ha_open[i-1]+ha_close[i-1])/2`;
`ha_high[i] = max(ha_open[i], ha_close[i], high[i])`; and
`ha_low[i] = min(ha_open[i], ha_close[i], low[i])`. -/
theorem c1_heikin_ashi_recurrence (bars : List Bar) (hne : bars ≠ []) :
    (calculate_heikin_ashi bars).length = bars.length ∧
    (∀ i, i < bars.length →
      (((calculate_heikin_ashi bars).getD i dHA).haClose =
        ((bars.getD i dBar).Open + (bars.getD i dBar).High +
         (bars.getD i dBar).Low + (bars.getD i dBar).Close) / 4)) ∧
    ((calculate_heikin_ashi bars).getD 0 dHA).haOpen =
      ((bars.getD 0 dBar).Open + (bars.getD 0 dBar).Close) / 2 ∧
    (∀ i, i + 1 < bars.length →
      ((calculate_heikin_ashi bars).getD (i + 1) dHA).haOpen =
        (((calculate_heikin_ashi bars).getD i dHA).haOpen +
         ((calculate_heikin_ashi bars).getD i dHA).haClose) / 2) ∧
    (∀ i, i < bars.length →
      ((calculate_heikin_ashi bars).getD i dHA).haHigh =
        max (max ((calculate_heikin_ashi bars).getD i dHA).haOpen
          ((calculate_heikin_ashi bars).getD i dHA).haClose) ((bars.getD i dBar).High) ∧
      ((calculate_heikin_ashi bars).getD i dHA).haLow =
        min (min ((calculate_heikin_ashi bars).getD i dHA).haOpen
          ((calculate_heikin_ashi bars).getD i dHA).haClose) ((bars.getD i dBar).Low)) := by
  cases bars with
  | nil => exact absurd rfl hne
  | cons b rest =>
    refine ⟨calculate_heikin_ashi_length _, ?_, ?_, ?_, ?_⟩
    · intro i hi
      simpa [barHAClose] using haGo_getD_haClose ((b.Open + b.Close) / 2) (b :: rest) i hi
    · simpa [calculate_heikin_ashi] using
        haGo_getD_zero_haOpen ((b.Open + b.Close) / 2) b rest
    · intro i hi
      simpa [calculate_heikin_ashi] using
        haGo_getD_succ_haOpen ((b.Open + b.Close) / 2) (b :: rest) i hi
    · intro i hi
      simpa [calculate_heikin_ashi] using
        haGo_getD_haHighLow ((b.Open + b.Close) / 2) (b :: rest) i hi

/-- Witness for C1 at a concrete one-bar input. -/
theorem c1_heikin_ashi_recurrence_witness :
    ((calculate_heikin_ashi [⟨1, 2, 0, 1⟩]).getD 0 dHA).haOpen = 1 ∧
    ((calculate_heikin_ashi [⟨1, 2, 0, 1⟩]).getD 0 dHA).haClose = 1 := by
  have h := c1_heikin_ashi_recurrence [⟨1, 2, 0, 1⟩] (by simp)
  have h1 := h.2.2.1
  have h2 := h.2.1 0 (by norm_num)
  norm_num [dBar, barHAClose] at h1 h2
  exact ⟨h1, h2⟩

theorem haGo_mem_shape (ho : ℚ) (bars : List Bar) :
    ∀ hb ∈ haGo ho bars, ∃ h2 b2, hb = mkHA h2 b2 := by
  induction bars generalizing ho with
  | nil => intro hb h; simp [haGo] at h
  | cons b rest ih =>
    intro hb h
    simp only [haGo, List.mem_cons] at h
    cases h with
    | inl h => exact ⟨ho, b, h⟩
    | inr h => exact ih _ hb h

/-- C4: every derived Heikin Ashi bar satisfies
`ha_low ≤ min(ha_open, ha_close) ≤ max(ha_open, ha_close) ≤ ha_high`. -/
theorem c4_ha_low_high_invariant (bars : List Bar) (hb : HABar)
    (hmem : hb ∈ calculate_heikin_ashi bars) :
    hb.haLow ≤ min hb.haOpen hb.haClose ∧
    min hb.haOpen hb.haClose ≤ max hb.haOpen hb.haClose ∧
    max hb.haOpen hb.haClose ≤ hb.haHigh := by
  have hshape : ∃ h2 b2, hb = mkHA h2 b2 := by
    cases bars with
    | nil => simp [calculate_heikin_ashi] at hmem
    | cons b rest =>
      exact haGo_mem_shape _ _ hb (by simpa [calculate_heikin_ashi] using hmem)
  obtain ⟨h2, b2, rfl⟩ := hshape
  refine ⟨?_, min_le_max, ?_⟩
  · simp only [mkHA]
    exact min_le_left _ _
  · simp only [mkHA]
    exact le_max_left _ _

/-- Witness for C4 at a concrete input. -/
theorem c4_ha_low_high_invariant_witness :
    (⟨1, 1, 2, 0⟩ : HABar).haLow ≤
      min (⟨1, 1, 2, 0⟩ : HABar).haOpen (⟨1, 1, 2, 0⟩ : HABar).haClose ∧
    min (⟨1, 1, 2, 0⟩ : HABar).haOpen (⟨1, 1, 2, 0⟩ : HABar).haClose ≤
      max (⟨1, 1, 2, 0⟩ : HABar).haOpen (⟨1, 1, 2, 0⟩ : HABar).haClose ∧
    max (⟨1, 1, 2, 0⟩ : HABar).haOpen (⟨1, 1, 2, 0⟩ : HABar).haClose ≤
      (⟨1, 1, 2, 0⟩ : HABar).haHigh :=
  c4_ha_low_high_invariant [⟨1, 2, 0, 1⟩] ⟨1, 1, 2, 0⟩
    (by norm_num [calculate_heikin_ashi, haGo, mkHA, barHAClose])

/-- Column HA_Bullish: `HA_Close > HA_Open` (line 49). -/
def HA_Bullish (hb : HABar) : Bool := hb.haClose > hb.haOpen

/-- Column HA_Bearish: `HA_Close < HA_Open` (line 50). -/
def HA_Bearish (hb : HABar) : Bool := hb.haClose < hb.haOpen

/-- Column HA_Body_Size: `|HA_Close - HA_Open|` (line 54). -/
def HA_Body_Size (hb : HABar) : ℚ := |hb.haClose - hb.haOpen|

/-- Column HA_Upper_Shadow: `HA_High - max(HA_Open, HA_Close)` (line 55). -/
def HA_Upper_Shadow (hb : HABar) : ℚ := hb.haHigh - max hb.haOpen hb.haClose

/-- Column HA_Lower_Shadow: `min(HA_Open, HA_Close) - HA_Low` (line 56). -/
def HA_Lower_Shadow (hb : HABar) : ℚ := min hb.haOpen hb.haClose - hb.haLow

/-- Column HA_Total_Range: `HA_High - HA_Low` (line 57). -/
def HA_Total_Range (hb : HABar) : ℚ := hb.haHigh - hb.haLow

/-- Column HA_Strong_Bull (lines 60–62). -/
def HA_Strong_Bull (hb : HABar) : Bool :=
  HA_Bullish hb && (HA_Body_Size hb > HA_Total_Range hb * 0.6)
    && (HA_Upper_Shadow hb < HA_Body_Size hb * 0.3)

/-- Column HA_Strong_Bear (lines 64–66). -/
def HA_Strong_Bear (hb : HABar) : Bool :=
  HA_Bearish hb && (HA_Body_Size hb > HA_Total_Range hb * 0.6)
    && (HA_Lower_Shadow hb < HA_Body_Size hb * 0.3)

/-- Column HA_Hammer (lines 68–69). -/
def HA_Hammer (hb : HABar) : Bool :=
  (HA_Lower_Shadow hb > HA_Body_Size hb * 2) && (HA_Upper_Shadow hb < HA_Body_Size hb * 0.5)

/-- Column HA_Shooting_Star (lines 71–72). -/
def HA_Shooting_Star (hb : HABar) : Bool :=
  (HA_Upper_Shadow hb > HA_Body_Size hb * 2) && (HA_Lower_Shadow hb < HA_Body_Size hb * 0.5)

/-- The loop body of lines 80–90: the `HA_Trend_Strength` of each bar from the
flags and trend strength of the previous bar, threaded down the list. -/
def tsGo (prevTS : ℤ) (prev : HABar) : List HABar → List ℤ
  | [] => []
  | hb :: rest =>
    let t : ℤ :=
      if HA_Bullish hb then (if HA_Bullish prev then prevTS + 1 else 1)
      else if HA_Bearish hb then (if HA_Bearish prev then prevTS - 1 else -1)
      else 0
    t :: tsGo t hb rest

/-- The `HA_Trend_Strength` column (lines 79–90): initialised to 0, the loop
starts at index 1, so index 0 always keeps the value 0. -/
def trendStrength : List HABar → List ℤ
  | [] => []
  | hb :: rest => 0 :: tsGo 0 hb rest

/-- Direction of a Heikin Ashi candle: `1` bullish, `-1` bearish, `0` doji
(helper for stating the run-length property). -/
def dirOf (hb : HABar) : ℤ :=
  if HA_Bullish hb then 1 else if HA_Bearish hb then -1 else 0

/-- Length of the current run of same-direction candles, as a list parallel
to the candle list (specification-side definition for C7). -/
def runGo (prev : HABar) (prevRL : ℕ) : List HABar → List ℕ
  | [] => []
  | hb :: rest =>
    let r := if dirOf hb = dirOf prev then prevRL + 1 else 1
    r :: runGo hb r rest

/-- Run lengths for a whole candle list: a run begins with length 1. -/
def runLenList : List HABar → List ℕ
  | [] => []
  | hb :: rest => 1 :: runGo hb 1 rest

theorem tsGo_length (prevTS : ℤ) (prev : HABar) (l : List HABar) :
    (tsGo prevTS prev l).length = l.length := by
  induction l generalizing prevTS prev with
  | nil => rfl
  | cons hb rest ih => simp [tsGo, ih]

theorem trendStrength_length (l : List HABar) :
    (trendStrength l).length = l.length := by
  cases l with
  | nil => rfl
  | cons hb rest => simp [trendStrength, tsGo_length]

theorem tsGo_step_invariant (prev hb : HABar) (prevTS : ℤ) (prevRL k : ℕ)
    (hinv : prevTS = dirOf prev * min (prevRL : ℤ) (k : ℤ)) :
    (if HA_Bullish hb then (if HA_Bullish prev then prevTS + 1 else 1)
     else if HA_Bearish hb then (if HA_Bearish prev then prevTS - 1 else -1)
     else 0)
    = dirOf hb *
        min ((if dirOf hb = dirOf prev then prevRL + 1 else 1 : ℕ) : ℤ) ((k + 1 : ℕ) : ℤ) := by
  simp only [dirOf, HA_Bullish, HA_Bearish, decide_eq_true_eq] at *
  split_ifs at * <;> push_cast <;> first | omega | linarith

theorem tsGo_runGo (rest : List HABar) :
    ∀ (prev : HABar) (prevTS : ℤ) (prevRL k : ℕ),
      prevTS = dirOf prev * min (prevRL : ℤ) (k : ℤ) →
      ∀ j, j < rest.length →
        (tsGo prevTS prev rest).getD j 0 =
          dirOf (rest.getD j dHA) *
            min (((runGo prev prevRL rest).getD j 0 : ℕ) : ℤ) ((k + 1 + j : ℕ) : ℤ) := by
  induction rest with
  | nil => intro _ _ _ _ _ j hj; simp at hj
  | cons hb rest2 ih =>
    intro prev prevTS prevRL k hinv j hj
    cases j with
    | zero =>
      simpa [tsGo, runGo] using tsGo_step_invariant prev hb prevTS prevRL k hinv
    | succ j2 =>
      simp only [tsGo, runGo, List.getD_cons_succ]
      have hstep := tsGo_step_invariant prev hb prevTS prevRL k hinv
      have hrec := ih hb _ _ (k + 1) hstep j2 (by simpa using hj)
      have he : k + 1 + 1 + j2 = k + 1 + (j2 + 1) := by omega
      rw [he] at hrec
      exact hrec

/-- C7 counterexample: a single bar whose Heikin Ashi candle is bullish
(`HA_Close = 1 > 0 = HA_Open`) but whose `HA_Trend_Strength` is `0`, not
positive: the column is initialised to 0 and the loop starts at index 1,
so the flag/sign correspondence claimed for every bar fails at index 0. -/
theorem c7_trend_strength_counterexample :
    HA_Bullish ((calculate_heikin_ashi [⟨0, 4, 0, 0⟩]).getD 0 dHA) = true ∧
    (trendStrength (calculate_heikin_ashi [⟨0, 4, 0, 0⟩])).getD 0 0 = 0 ∧
    ¬ (0 : ℤ) < (trendStrength (calculate_heikin_ashi [⟨0, 4, 0, 0⟩])).getD 0 0 := by
  norm_num [calculate_heikin_ashi, haGo, mkHA, barHAClose, trendStrength, HA_Bullish]

/-- C7 amended: `HA_Trend_Strength[i]` equals the candle direction
(`+1` bullish, `-1` bearish, `0` doji) times `min(runLen(i), i)`, where
`runLen(i)` is the length of the current run of consecutive same-direction
candles ending at `i`.  In particular the sign matches the flag for every
`i ≥ 1`, the value at index 0 is always 0, and a run that reaches back to
index 0 has magnitude one less than its length. -/
theorem c7_trend_strength_amended (bars : List Bar) :
    (trendStrength (calculate_heikin_ashi bars)).length = bars.length ∧
    ∀ i, i < bars.length →
      (trendStrength (calculate_heikin_ashi bars)).getD i 0 =
        dirOf ((calculate_heikin_ashi bars).getD i dHA) *
          min (((runLenList (calculate_heikin_ashi bars)).getD i 0 : ℕ) : ℤ) (i : ℤ) := by
  constructor
  · rw [trendStrength_length, calculate_heikin_ashi_length]
  · intro i hi
    have hlen : i < (calculate_heikin_ashi bars).length := by
      rwa [calculate_heikin_ashi_length]
    cases hha : calculate_heikin_ashi bars with
    | nil => rw [hha] at hlen; simp at hlen
    | cons hb0 ha_rest =>
      rw [hha] at hlen
      cases i with
      | zero => simp [trendStrength, runLenList, dirOf]
      | succ j =>
        have hj : j < ha_rest.length := by simpa using hlen
        have hrec := tsGo_runGo ha_rest hb0 0 1 0 (by norm_num) j hj
        have he : 0 + 1 + j = j + 1 := by omega
        rw [he] at hrec
        simpa [trendStrength, runLenList] using hrec

/-- Witness for C7 (amended) at a concrete two-bar input: two consecutive
bullish candles give trend strength `1` at index 1 (run length 2 capped at
the index). -/
theorem c7_trend_strength_amended_witness :
    (trendStrength (calculate_heikin_ashi [⟨0, 4, 0, 0⟩, ⟨0, 4, 0, 0⟩])).getD 1 0 = 1 := by
  have h := (c7_trend_strength_amended [⟨0, 4, 0, 0⟩, ⟨0, 4, 0, 0⟩]).2 1 (by norm_num)
  rw [h]
  norm_num [calculate_heikin_ashi, haGo, mkHA, barHAClose, runLenList, runGo, dirOf,
    HA_Bullish, HA_Bearish]

/-- Python `round` to the nearest integer, ties to even (banker rounding),
idealised over `ℚ`. -/
def roundHalfEven (x : ℚ) : ℤ :=
  if Int.fract x < 1 / 2 then ⌊x⌋
  else if Int.fract x > 1 / 2 then ⌊x⌋ + 1
  else if ⌊x⌋ % 2 = 0 then ⌊x⌋ else ⌊x⌋ + 1

/-- Python `round(x, 2)`: round to two decimal places, ties to even. -/
def round2 (x : ℚ) : ℚ := (roundHalfEven (x * 100) : ℚ) / 100

theorem roundHalfEven_sub_le (y : ℚ) : |(roundHalfEven y : ℚ) - y| ≤ 1 / 2 := by
  have h0 := Int.fract_nonneg y
  have h1 := Int.fract_lt_one y
  have hf : (⌊y⌋ : ℚ) = y - Int.fract y := by
    rw [Int.fract]; ring
  unfold roundHalfEven
  split_ifs <;> rw [abs_le] <;> constructor <;> push_cast <;> linarith

theorem round2_sub_le (x : ℚ) : |round2 x - x| ≤ 1 / 200 := by
  have h := roundHalfEven_sub_le (x * 100)
  rw [round2, abs_le] at *
  constructor <;> [linarith [h.1]; linarith [h.2]]

/-- The `technical_data` sub-dictionary of a signal result (lines 175–183,
267–275): numeric fields are rounded to two decimals as in the source. -/
structure TechData where
  current_price : ℚ
  ema_21 : ℚ
  atr : ℚ
  rsi : ℚ
  ha_trend_strength : ℤ
  price_distance_from_ema : ℚ
  volume_ratio : Option ℚ
deriving DecidableEq, Repr

/-- The dictionary returned by `is_bullish_signal` / `is_bearish_signal`.
The short-input early return (lines 98–99, 190–191) carries only the first
three keys, so the last two are `Option`s that are `none` there. -/
structure SignalResult where
  signal : Bool
  confidence : ℤ
  reasons : List String
  signal_strength : Option String
  technical_data : Option TechData
deriving DecidableEq, Repr

/-- Method get_signal_strength (lines 278–291). -/
def get_signal_strength (confidence : ℤ) : String :=
  if confidence ≥ 80 then ("VERY_STRONG")
  else if confidence ≥ 60 then ("STRONG")
  else if confidence ≥ 40 then ("MODERATE")
  else if confidence ≥ 20 then ("WEAK")
  else ("VERY_WEAK")

/-- Bullish condition 1 (lines 119–125): strong bullish candle `+25`, else
bullish with higher close `+15`. -/
def bullItem1 (last prev : HABar) : ℤ :=
  if HA_Strong_Bull last then 25
  else if HA_Bullish last ∧ last.haClose > prev.haClose then 15
  else 0

/-- Bullish condition 2 (lines 127–130): consecutive bullish candles. -/
def bullItem2 (lastTS : ℤ) : ℤ :=
  if lastTS ≥ 2 then min 20 (lastTS * 5) else 0

/-- Bullish condition 3 (lines 132–141): RSI regimes. -/
def bullItem3 (rsi : ℚ) : ℤ :=
  if 30 < rsi ∧ rsi < 70 then 15
  else if rsi > 70 then -10
  else if rsi < 30 then 10
  else 0

/-- Bullish condition 4 (lines 143–150): price versus EMA21 and ATR. -/
def bullItem4 (cp ema21 atr : ℚ) : ℤ :=
  if |cp - ema21| ≤ atr then 15
  else if cp > ema21 then 10
  else 0

/-- Condition 5 (lines 152–155, 244–247): volume confirmation, identical in
the bullish and bearish detectors. -/
def volItem (volRatio : Option ℚ) : ℤ :=
  match volRatio with
  | some v => if v > 1.2 then 10 else 0
  | none => 0

/-- Bullish condition 6 (lines 157–160): hammer near support. -/
def bullItem6 (last : HABar) (cp ema21 atr : ℚ) : ℤ :=
  if HA_Hammer last ∧ cp ≤ ema21 + atr then 20 else 0

/-- Bullish condition 7 (lines 162–165): trend reversal. -/
def bullItem7 (last prev : HABar) : ℤ :=
  if HA_Bearish prev ∧ HA_Bullish last ∧ last.haClose > prev.haClose then 15 else 0

/-- Reasons accumulated by the bullish detector, in source order.  The
numeric f-string suffixes of the source messages are elided. -/
def bullReasons (last prev : HABar) (lastTS : ℤ) (rsi atr ema21 cp : ℚ)
    (volRatio : Option ℚ) : List String :=
  (if HA_Strong_Bull last then [("Strong bullish Heikin Ashi candle")]
   else if HA_Bullish last ∧ last.haClose > prev.haClose then
     [("Bullish Heikin Ashi with higher close")]
   else []) ++
  (if lastTS ≥ 2 then [("Consecutive bullish momentum")] else []) ++
  (if 30 < rsi ∧ rsi < 70 then [("Healthy RSI level")]
   else if rsi > 70 then [("RSI overbought warning")]
   else if rsi < 30 then [("RSI oversold opportunity")]
   else []) ++
  (if |cp - ema21| ≤ atr then [("Price near EMA21 support")]
   else if cp > ema21 then [("Price above EMA21")]
   else []) ++
  (match volRatio with
   | some v => if v > 1.2 then [("Volume confirmation")] else []
   | none => []) ++
  (if HA_Hammer last ∧ cp ≤ ema21 + atr then [("Hammer pattern near support")] else []) ++
  (if HA_Bearish prev ∧ HA_Bullish last ∧ last.haClose > prev.haClose then
    [("Potential trend reversal")]
   else [])

/-- Method is_bullish_signal (lines 94–184).  The RSI, ATR and EMA21 values are
produced by the external `ta` indicator library on the same frame; they are
parameters here, as is the optional `Volume_Ratio` column of the frame. -/
def is_bullish_signal (bars : List Bar) (rsi atr ema21 : ℚ)
    (volRatio : Option ℚ) : SignalResult :=
  if bars.length < 5 then ⟨false, 0, [], none, none⟩
  else
    let ha := calculate_heikin_ashi bars
    let last := ha.getD (ha.length - 1) dHA
    let prev := ha.getD (ha.length - 2) dHA
    let lastTS := (trendStrength ha).getD (ha.length - 1) 0
    let cp := (bars.getD (bars.length - 1) dBar).Close
    let conf := bullItem1 last prev + bullItem2 lastTS + bullItem3 rsi +
      bullItem4 cp ema21 atr + volItem volRatio + bullItem6 last cp ema21 atr +
      bullItem7 last prev
    { signal := conf ≥ 40
      confidence := min 100 conf
      reasons := bullReasons last prev lastTS rsi atr ema21 cp volRatio
      signal_strength := some (get_signal_strength conf)
      technical_data := some
        { current_price := round2 cp
          ema_21 := round2 ema21
          atr := round2 atr
          rsi := round2 rsi
          ha_trend_strength := lastTS
          price_distance_from_ema := round2 |cp - ema21|
          volume_ratio := volRatio.map round2 } }

/-- Bearish condition 1 (lines 211–217). -/
def bearItem1 (last prev : HABar) : ℤ :=
  if HA_Strong_Bear last then 25
  else if HA_Bearish last ∧ last.haClose < prev.haClose then 15
  else 0

/-- Bearish condition 2 (lines 219–222): consecutive bearish candles. -/
def bearItem2 (lastTS : ℤ) : ℤ :=
  if lastTS ≤ -2 then min 20 (|lastTS| * 5) else 0

/-- Bearish condition 3 (lines 224–233): RSI regimes. -/
def bearItem3 (rsi : ℚ) : ℤ :=
  if 30 < rsi ∧ rsi < 70 then 10
  else if rsi > 70 then 20
  else if rsi < 30 then -10
  else 0

/-- Bearish condition 4 (lines 235–242): price versus EMA21 and ATR. -/
def bearItem4 (cp ema21 atr : ℚ) : ℤ :=
  if |cp - ema21| ≤ atr then 15
  else if cp < ema21 then 10
  else 0

/-- Bearish condition 6 (lines 249–252): shooting star near resistance. -/
def bearItem6 (last : HABar) (cp ema21 atr : ℚ) : ℤ :=
  if HA_Shooting_Star last ∧ cp ≥ ema21 - atr then 20 else 0

/-- Bearish condition 7 (lines 254–257): trend reversal. -/
def bearItem7 (last prev : HABar) : ℤ :=
  if HA_Bullish prev ∧ HA_Bearish last ∧ last.haClose < prev.haClose then 15 else 0

/-- Reasons accumulated by the bearish detector, in source order. -/
def bearReasons (last prev : HABar) (lastTS : ℤ) (rsi atr ema21 cp : ℚ)
    (volRatio : Option ℚ) : List String :=
  (if HA_Strong_Bear last then [("Strong bearish Heikin Ashi candle")]
   else if HA_Bearish last ∧ last.haClose < prev.haClose then
     [("Bearish Heikin Ashi with lower close")]
   else []) ++
  (if lastTS ≤ -2 then [("Consecutive bearish momentum")] else []) ++
  (if 30 < rsi ∧ rsi < 70 then [("Neutral RSI level")]
   else if rsi > 70 then [("RSI overbought sell signal")]
   else if rsi < 30 then [("RSI oversold warning")]
   else []) ++
  (if |cp - ema21| ≤ atr then [("Price near EMA21 resistance")]
   else if cp < ema21 then [("Price below EMA21")]
   else []) ++
  (match volRatio with
   | some v => if v > 1.2 then [("Volume confirmation")] else []
   | none => []) ++
  (if HA_Shooting_Star last ∧ cp ≥ ema21 - atr then
    [("Shooting star pattern near resistance")]
   else []) ++
  (if HA_Bullish prev ∧ HA_Bearish last ∧ last.haClose < prev.haClose then
    [("Potential trend reversal")]
   else [])

/-- Method is_bearish_signal (lines 186–276). -/
def is_bearish_signal (bars : List Bar) (rsi atr ema21 : ℚ)
    (volRatio : Option ℚ) : SignalResult :=
  if bars.length < 5 then ⟨false, 0, [], none, none⟩
  else
    let ha := calculate_heikin_ashi bars
    let last := ha.getD (ha.length - 1) dHA
    let prev := ha.getD (ha.length - 2) dHA
    let lastTS := (trendStrength ha).getD (ha.length - 1) 0
    let cp := (bars.getD (bars.length - 1) dBar).Close
    let conf := bearItem1 last prev + bearItem2 lastTS + bearItem3 rsi +
      bearItem4 cp ema21 atr + volItem volRatio + bearItem6 last cp ema21 atr +
      bearItem7 last prev
    { signal := conf ≥ 40
      confidence := min 100 conf
      reasons := bearReasons last prev lastTS rsi atr ema21 cp volRatio
      signal_strength := some (get_signal_strength conf)
      technical_data := some
        { current_price := round2 cp
          ema_21 := round2 ema21
          atr := round2 atr
          rsi := round2 rsi
          ha_trend_strength := lastTS
          price_distance_from_ema := round2 |cp - ema21|
          volume_ratio := volRatio.map round2 } }

/-- The primary-signal resolution of `analyze_single_stock` (lines 311–333):
primary signal name, confidence and reasons. -/
def determine_primary (bullish bearish : SignalResult) : String × ℤ × List String :=
  if bullish.signal ∧ bearish.signal then
    if bullish.confidence > bearish.confidence then
      (("BULLISH"), bullish.confidence, bullish.reasons)
    else
      (("BEARISH"), bearish.confidence, bearish.reasons)
  else if bullish.signal then (("BULLISH"), bullish.confidence, bullish.reasons)
  else if bearish.signal then (("BEARISH"), bearish.confidence, bearish.reasons)
  else (("NEUTRAL"), 0, [("No clear signal detected")])

/-- The signal-analysis part of `analyze_single_stock` (lines 304–333),
from the fetched frame and the indicator values computed on it. -/
def analyze_primary (bars : List Bar) (rsi atr ema21 : ℚ)
    (volRatio : Option ℚ) : String × ℤ × List String :=
  determine_primary (is_bullish_signal bars rsi atr ema21 volRatio)
    (is_bearish_signal bars rsi atr ema21 volRatio)

theorem bullItem1_bounds (last prev : HABar) :
    0 ≤ bullItem1 last prev ∧ bullItem1 last prev ≤ 25 := by
  unfold bullItem1; split_ifs <;> omega

theorem bullItem2_bounds (lastTS : ℤ) :
    0 ≤ bullItem2 lastTS ∧ bullItem2 lastTS ≤ 20 := by
  unfold bullItem2; split_ifs <;> omega

theorem bullItem3_bounds (rsi : ℚ) :
    -10 ≤ bullItem3 rsi ∧ bullItem3 rsi ≤ 15 := by
  unfold bullItem3; split_ifs <;> omega

theorem bullItem4_bounds (cp ema21 atr : ℚ) :
    0 ≤ bullItem4 cp ema21 atr ∧ bullItem4 cp ema21 atr ≤ 15 := by
  unfold bullItem4; split_ifs <;> omega

theorem volItem_bounds (volRatio : Option ℚ) :
    0 ≤ volItem volRatio ∧ volItem volRatio ≤ 10 := by
  cases volRatio with
  | none => simp [volItem]
  | some v =>
    simp only [volItem]
    split_ifs <;> omega

theorem bullItem6_bounds (last : HABar) (cp ema21 atr : ℚ) :
    0 ≤ bullItem6 last cp ema21 atr ∧ bullItem6 last cp ema21 atr ≤ 20 := by
  unfold bullItem6; split_ifs <;> omega

theorem bullItem7_bounds (last prev : HABar) :
    0 ≤ bullItem7 last prev ∧ bullItem7 last prev ≤ 15 := by
  unfold bullItem7; split_ifs <;> omega

theorem bearItem1_bounds (last prev : HABar) :
    0 ≤ bearItem1 last prev ∧ bearItem1 last prev ≤ 25 := by
  unfold bearItem1; split_ifs <;> omega

theorem bearItem2_bounds (lastTS : ℤ) :
    0 ≤ bearItem2 lastTS ∧ bearItem2 lastTS ≤ 20 := by
  unfold bearItem2; split_ifs with h
  · rw [abs_of_nonpos (by omega)]; omega
  · omega

theorem bearItem3_bounds (rsi : ℚ) :
    -10 ≤ bearItem3 rsi ∧ bearItem3 rsi ≤ 20 := by
  unfold bearItem3; split_ifs <;> omega

theorem bearItem4_bounds (cp ema21 atr : ℚ) :
    0 ≤ bearItem4 cp ema21 atr ∧ bearItem4 cp ema21 atr ≤ 15 := by
  unfold bearItem4; split_ifs <;> omega

theorem bearItem6_bounds (last : HABar) (cp ema21 atr : ℚ) :
    0 ≤ bearItem6 last cp ema21 atr ∧ bearItem6 last cp ema21 atr ≤ 20 := by
  unfold bearItem6; split_ifs <;> omega

theorem bearItem7_bounds (last prev : HABar) :
    0 ≤ bearItem7 last prev ∧ bearItem7 last prev ≤ 15 := by
  unfold bearItem7; split_ifs <;> omega

theorem bull_raw_lower (last prev : HABar) (lastTS : ℤ) (rsi cp ema21 atr : ℚ)
    (volRatio : Option ℚ) :
    -10 ≤ bullItem1 last prev + bullItem2 lastTS + bullItem3 rsi +
      bullItem4 cp ema21 atr + volItem volRatio + bullItem6 last cp ema21 atr +
      bullItem7 last prev := by
  have h1 := bullItem1_bounds last prev
  have h2 := bullItem2_bounds lastTS
  have h3 := bullItem3_bounds rsi
  have h4 := bullItem4_bounds cp ema21 atr
  have h5 := volItem_bounds volRatio
  have h6 := bullItem6_bounds last cp ema21 atr
  have h7 := bullItem7_bounds last prev
  omega

theorem bear_raw_lower (last prev : HABar) (lastTS : ℤ) (rsi cp ema21 atr : ℚ)
    (volRatio : Option ℚ) :
    -10 ≤ bearItem1 last prev + bearItem2 lastTS + bearItem3 rsi +
      bearItem4 cp ema21 atr + volItem volRatio + bearItem6 last cp ema21 atr +
      bearItem7 last prev := by
  have h1 := bearItem1_bounds last prev
  have h2 := bearItem2_bounds lastTS
  have h3 := bearItem3_bounds rsi
  have h4 := bearItem4_bounds cp ema21 atr
  have h5 := volItem_bounds volRatio
  have h6 := bearItem6_bounds last cp ema21 atr
  have h7 := bearItem7_bounds last prev
  omega

/-- C2 counterexample: a 5-bar input for which the bullish raw sum is `-10`
(last candle bearish, RSI overbought, price far below EMA21, no volume
column) and the returned confidence is `min(100, -10) = -10`, outside
`[0, 100]`: the code clamps only from above, never at 0. -/
theorem c2_confidence_clamp_counterexample :
    (is_bullish_signal
      [⟨100, 100, 100, 100⟩, ⟨100, 100, 100, 100⟩, ⟨100, 100, 100, 100⟩,
       ⟨100, 100, 92, 96⟩, ⟨96, 102, 90, 96⟩] 80 1 1000 none).confidence = -10 ∧
    ¬ (0 ≤ (is_bullish_signal
      [⟨100, 100, 100, 100⟩, ⟨100, 100, 100, 100⟩, ⟨100, 100, 100, 100⟩,
       ⟨100, 100, 92, 96⟩, ⟨96, 102, 90, 96⟩] 80 1 1000 none).confidence) := by
  norm_num [is_bullish_signal, calculate_heikin_ashi, haGo, mkHA, barHAClose,
    trendStrength, tsGo, HA_Bullish, HA_Bearish, HA_Strong_Bull, HA_Strong_Bear,
    HA_Hammer, HA_Shooting_Star, HA_Body_Size, HA_Upper_Shadow, HA_Lower_Shadow,
    HA_Total_Range, bullItem1, bullItem2, bullItem3, bullItem4, volItem,
    bullItem6, bullItem7, dHA, dBar, abs_eq_max_neg, max_def, min_def]

/-- C2 amended: for every input (any length, any indicator values), the
confidence returned by `is_bullish_signal` and by `is_bearish_signal` is
clamped from above to at most 100 via `min(100, ·)`, and is bounded below
by `-10` (the single negative sub-condition); negative raw sums are NOT
clamped to 0, so the confidence lies in `[-10, 100]`, not `[0, 100]`. -/
theorem c2_confidence_clamp_amended (bars : List Bar) (rsi atr ema21 : ℚ)
    (volRatio : Option ℚ) :
    (-10 ≤ (is_bullish_signal bars rsi atr ema21 volRatio).confidence ∧
     (is_bullish_signal bars rsi atr ema21 volRatio).confidence ≤ 100) ∧
    (-10 ≤ (is_bearish_signal bars rsi atr ema21 volRatio).confidence ∧
     (is_bearish_signal bars rsi atr ema21 volRatio).confidence ≤ 100) := by
  constructor
  · unfold is_bullish_signal
    split_ifs
    · simp
    · exact ⟨le_min (by norm_num) (bull_raw_lower _ _ _ _ _ _ _ _), min_le_left _ _⟩
  · unfold is_bearish_signal
    split_ifs
    · simp
    · exact ⟨le_min (by norm_num) (bear_raw_lower _ _ _ _ _ _ _ _), min_le_left _ _⟩

/-- C3 counterexample: a concrete input on which the bullish and the bearish
detectors both trigger with the same confidence 60, and the primary signal
is `BEARISH` — the `else` branch of the strictly-greater comparison — not
the first-evaluated bullish side claimed by the spec. -/
theorem c3_tie_break_counterexample :
    (is_bullish_signal
      [⟨100, 100, 100, 100⟩, ⟨100, 100, 100, 100⟩, ⟨100, 100, 100, 100⟩,
       ⟨100, 100, 92, 96⟩, ⟨98, 98, 90, 98⟩] 50 1 98 (some 1.5)).signal = true ∧
    (is_bullish_signal
      [⟨100, 100, 100, 100⟩, ⟨100, 100, 100, 100⟩, ⟨100, 100, 100, 100⟩,
       ⟨100, 100, 92, 96⟩, ⟨98, 98, 90, 98⟩] 50 1 98 (some 1.5)).confidence = 60 ∧
    (is_bearish_signal
      [⟨100, 100, 100, 100⟩, ⟨100, 100, 100, 100⟩, ⟨100, 100, 100, 100⟩,
       ⟨100, 100, 92, 96⟩, ⟨98, 98, 90, 98⟩] 50 1 98 (some 1.5)).signal = true ∧
    (is_bearish_signal
      [⟨100, 100, 100, 100⟩, ⟨100, 100, 100, 100⟩, ⟨100, 100, 100, 100⟩,
       ⟨100, 100, 92, 96⟩, ⟨98, 98, 90, 98⟩] 50 1 98 (some 1.5)).confidence = 60 ∧
    (analyze_primary
      [⟨100, 100, 100, 100⟩, ⟨100, 100, 100, 100⟩, ⟨100, 100, 100, 100⟩,
       ⟨100, 100, 92, 96⟩, ⟨98, 98, 90, 98⟩] 50 1 98 (some 1.5)).1 = ("BEARISH") ∧
    (("BEARISH") : String) ≠ ("BULLISH") := by
  refine ⟨?_, ?_, ?_, ?_, ?_, by decide⟩ <;>
  norm_num [analyze_primary, determine_primary, is_bullish_signal, is_bearish_signal,
    calculate_heikin_ashi, haGo, mkHA, barHAClose,
    trendStrength, tsGo, HA_Bullish, HA_Bearish, HA_Strong_Bull, HA_Strong_Bear,
    HA_Hammer, HA_Shooting_Star, HA_Body_Size, HA_Upper_Shadow, HA_Lower_Shadow,
    HA_Total_Range, bullItem1, bullItem2, bullItem3, bullItem4, volItem,
    bullItem6, bullItem7, bearItem1, bearItem2, bearItem3, bearItem4,
    bearItem6, bearItem7, dHA, dBar, abs_eq_max_neg, max_def, min_def]

/-- C3 amended: when both detectors trigger, the primary signal is the side
with the strictly higher confidence, and on an exact confidence tie the
BEARISH side — the `else` branch of `bullish.confidence > bearish.confidence`,
i.e. the second-evaluated side — wins.  The resolution is a pure function of
the two results, hence deterministic. -/
theorem c3_tie_break_amended (bull bear : SignalResult)
    (hb : bull.signal = true) (he : bear.signal = true) :
    (bull.confidence > bear.confidence →
      (determine_primary bull bear).1 = ("BULLISH")) ∧
    (bull.confidence ≤ bear.confidence →
      (determine_primary bull bear).1 = ("BEARISH")) := by
  unfold determine_primary
  constructor <;> intro hc
  · rw [if_pos ⟨hb, he⟩, if_pos hc]
  · rw [if_pos ⟨hb, he⟩, if_neg (not_lt.mpr hc)]

/-- Witness for C3 (amended): two triggering results with equal confidence
50 resolve to BEARISH. -/
theorem c3_tie_break_amended_witness :
    (determine_primary ⟨true, 50, [], none, none⟩ ⟨true, 50, [], none, none⟩).1 =
      ("BEARISH") :=
  (c3_tie_break_amended ⟨true, 50, [], none, none⟩ ⟨true, 50, [], none, none⟩
    rfl rfl).2 (by norm_num)

/-- C10: for every input shorter than 5 bars, both detectors return the
early-result dictionary — signal False, confidence 0, reasons empty —
— with no signal-strength or technical-data entries — for every possible
value of the RSI/ATR/EMA21 indicators and of the volume-ratio column, i.e.
independently of any Heikin Ashi or indicator computation. -/
theorem c10_short_input_early_return (bars : List Bar) (rsi atr ema21 : ℚ)
    (volRatio : Option ℚ) (h : bars.length < 5) :
    is_bullish_signal bars rsi atr ema21 volRatio =
      { signal := false, confidence := 0, reasons := [],
        signal_strength := none, technical_data := none } ∧
    is_bearish_signal bars rsi atr ema21 volRatio =
      { signal := false, confidence := 0, reasons := [],
        signal_strength := none, technical_data := none } := by
  unfold is_bullish_signal is_bearish_signal
  rw [if_pos h, if_pos h]
  exact ⟨rfl, rfl⟩

/-- Witness for C10 at a concrete 1-bar input with arbitrary indicator
values. -/
theorem c10_short_input_early_return_witness :
    is_bullish_signal [⟨1, 1, 1, 1⟩] 7 8 9 (some 2) =
      { signal := false, confidence := 0, reasons := [],
        signal_strength := none, technical_data := none } ∧
    is_bearish_signal [⟨1, 1, 1, 1⟩] 7 8 9 (some 2) =
      { signal := false, confidence := 0, reasons := [],
        signal_strength := none, technical_data := none } :=
  c10_short_input_early_return [⟨1, 1, 1, 1⟩] 7 8 9 (some 2) (by norm_num)

/-! ### Screener (`backend/screener_module.py`)

The screener reads only the last row of the indicator frame (`df.iloc[-1]`);
the frame is modelled as `Option ScreenRow` (`none` = missing/empty frame).
Indicator cells that can be `NaN` are `Option ℚ` (`pd.notna` = `isSome`). -/

/-- The last row of the indicator frame of the screener. -/
structure ScreenRow where
  EMA_8 : ℚ
  EMA_13 : ℚ
  EMA_21 : ℚ
  EMA_34 : ℚ
  EMA_55 : ℚ
  EMA_89 : ℚ
  ADX : Option ℚ
  Stoch_K : Option ℚ
  Stoch_D : Option ℚ
  RSI : Option ℚ
  Volume_Ratio : Option ℚ
  ATR : Option ℚ
  Close : ℚ
deriving DecidableEq, Repr

/-- The fundamental fields of `get_stock_info` that the screening logic
reads (the remaining keys are display-only strings). -/
structure StockInfo where
  market_cap : ℚ
  avg_volume : ℚ
  beta : ℚ
  pe_ratio : ℚ
deriving DecidableEq, Repr

/-- Guarded comparison `pd.notna(x) and x > t`. -/
def notnaGT (o : Option ℚ) (t : ℚ) : Bool :=
  match o with
  | some x => x > t
  | none => false

/-- Guarded comparison `pd.notna(x) and x < t`. -/
def notnaLT (o : Option ℚ) (t : ℚ) : Bool :=
  match o with
  | some x => x < t
  | none => false

/-- Guarded comparison `pd.notna(x) and lo <= x <= hi`. -/
def notnaBetween (o : Option ℚ) (lo hi : ℚ) : Bool :=
  match o with
  | some x => lo ≤ x ∧ x ≤ hi
  | none => false

/-- Method passes_ema_stack_screen (lines 147–162): bullish EMA alignment
`8 > 13 > 21 > 34 > 55 > 89`; an empty frame fails. -/
def passes_ema_stack_screen (df : Option ScreenRow) : Bool :=
  match df with
  | none => false
  | some r =>
    r.EMA_8 > r.EMA_13 ∧ r.EMA_13 > r.EMA_21 ∧ r.EMA_21 > r.EMA_34 ∧
      r.EMA_34 > r.EMA_55 ∧ r.EMA_55 > r.EMA_89

/-- Method passes_momentum_screen (lines 164–182): ADX > 20, Stoch %K < 40 and
RSI in [30, 70], each guarded by `pd.notna`. -/
def passes_momentum_screen (df : Option ScreenRow) : Bool :=
  match df with
  | none => false
  | some r => notnaGT r.ADX 20 && notnaLT r.Stoch_K 40 && notnaBetween r.RSI 30 70

/-- Method passes_volume_screen (lines 184–196): volume ratio above average. -/
def passes_volume_screen (df : Option ScreenRow) : Bool :=
  match df with
  | none => false
  | some r => notnaGT r.Volume_Ratio 1.0

/-- Method passes_fundamental_screen (lines 198–208): market cap > $100B and
average volume > 1M. -/
def passes_fundamental_screen (info : StockInfo) : Bool :=
  (info.market_cap > 100000000000 : Bool) && (info.avg_volume > 1000000 : Bool)

/-- The `components` dictionary of `calculate_screening_score`. -/
structure ScoreComponents where
  ema_stack : ℤ
  momentum : ℤ
  volume : ℤ
  fundamental : ℤ
  technical : ℤ
deriving DecidableEq, Repr

/-- The dictionary returned by `calculate_screening_score`: on an empty
frame it is score 0 with an empty components dictionary and no max_score key. -/
structure ScoreData where
  score : ℤ
  components : Option ScoreComponents
  max_score : Option ℤ
deriving DecidableEq, Repr

/-- EMA Stack Score, 30 all-or-nothing (lines 220–224). -/
def emaStackScore (r : ScreenRow) : ℤ :=
  if passes_ema_stack_screen (some r) then 30 else 0

/-- Momentum Score, independently awarded 10 + 8 + 7 (lines 226–234). -/
def momentumScore (r : ScreenRow) : ℤ :=
  (if notnaGT r.ADX 20 then 10 else 0) +
  (if notnaLT r.Stoch_K 40 then 8 else 0) +
  (if notnaBetween r.RSI 30 70 then 7 else 0)

/-- Volume Score: 15 if ratio > 1.5, else 10 if ratio > 1.0, else 0
(lines 236–242). -/
def volumeScore (r : ScreenRow) : ℤ :=
  if notnaGT r.Volume_Ratio 1.5 then 15
  else if notnaGT r.Volume_Ratio 1.0 then 10
  else 0

/-- Fundamental Score, 10 + 5 (lines 244–250). -/
def fundamentalScore (info : StockInfo) : ℤ :=
  (if info.market_cap > 100000000000 then 10 else 0) +
  (if info.avg_volume > 1000000 then 5 else 0)

/-- Technical Strength Score, 5 + 5 (lines 252–258). -/
def technicalScore (r : ScreenRow) : ℤ :=
  (if notnaBetween r.RSI 40 60 then 5 else 0) +
  (if notnaGT r.ADX 30 then 5 else 0)

/-- Method calculate_screening_score (lines 210–266). -/
def calculate_screening_score (df : Option ScreenRow) (info : StockInfo) : ScoreData :=
  match df with
  | none => ⟨0, none, none⟩
  | some r =>
    { score := emaStackScore r + momentumScore r + volumeScore r +
        fundamentalScore info + technicalScore r
      components := some ⟨emaStackScore r, momentumScore r, volumeScore r,
        fundamentalScore info, technicalScore r⟩
      max_score := some 100 }

/-- The analytic fields of the result dictionary of `screen_single_stock`
(lines 295–325); string metadata (`ticker`, `name`, `sector`, `industry`,
`screened_at`) is omitted. -/
structure ScreenResult where
  current_price : ℚ
  market_cap : ℚ
  screening_score : ℤ
  score_components : Option ScoreComponents
  passes_ema_stack : Bool
  passes_momentum : Bool
  passes_volume : Bool
  passes_fundamental : Bool
  overall_pass : Bool
  ema_8 : ℚ
  ema_13 : ℚ
  ema_21 : ℚ
  ema_34 : ℚ
  ema_55 : ℚ
  ema_89 : ℚ
  adx : Option ℚ
  stoch_k : Option ℚ
  stoch_d : Option ℚ
  rsi : Option ℚ
  atr : Option ℚ
  volume_ratio : Option ℚ
  avg_volume : ℚ
  beta : ℚ
  pe_ratio : ℚ
deriving DecidableEq, Repr

/-- Method screen_single_stock (lines 268–331): `None` when the frame could not
be fetched, otherwise the screening result;
`overall_pass = all([ema_pass, momentum_pass, volume_pass, fundamental_pass])`
(line 308). -/
def screen_single_stock (df : Option ScreenRow) (info : StockInfo) :
    Option ScreenResult :=
  match df with
  | none => none
  | some r =>
    let score_data := calculate_screening_score (some r) info
    let ema_pass := passes_ema_stack_screen (some r)
    let momentum_pass := passes_momentum_screen (some r)
    let volume_pass := passes_volume_screen (some r)
    let fundamental_pass := passes_fundamental_screen info
    some
      { current_price := round2 r.Close
        market_cap := info.market_cap
        screening_score := score_data.score
        score_components := score_data.components
        passes_ema_stack := ema_pass
        passes_momentum := momentum_pass
        passes_volume := volume_pass
        passes_fundamental := fundamental_pass
        overall_pass := ema_pass && momentum_pass && volume_pass && fundamental_pass
        ema_8 := round2 r.EMA_8
        ema_13 := round2 r.EMA_13
        ema_21 := round2 r.EMA_21
        ema_34 := round2 r.EMA_34
        ema_55 := round2 r.EMA_55
        ema_89 := round2 r.EMA_89
        adx := r.ADX.map round2
        stoch_k := r.Stoch_K.map round2
        stoch_d := r.Stoch_D.map round2
        rsi := r.RSI.map round2
        atr := r.ATR.map round2
        volume_ratio := r.Volume_Ratio.map round2
        avg_volume := info.avg_volume
        beta := info.beta
        pe_ratio := info.pe_ratio }

/-- C5: `overall_pass` is exactly the conjunction of the four gate booleans
(EMA-stack, momentum, volume, fundamental) — it is a pure function of the
gates alone, so it cannot depend on the screening score: with any gate
false it is false whatever the score, and with all four gates true it is
true however low the score. -/
theorem c5_overall_pass_gate_conjunction :
    (∀ (r : ScreenRow) (info : StockInfo),
      (screen_single_stock (some r) info).map (fun res => res.overall_pass) =
        some (passes_ema_stack_screen (some r) && passes_momentum_screen (some r) &&
          passes_volume_screen (some r) && passes_fundamental_screen info)) ∧
    (∀ info : StockInfo, screen_single_stock none info = none) := by
  constructor
  · intro r info
    rfl
  · intro info
    rfl

theorem emaStackScore_cases (r : ScreenRow) :
    (emaStackScore r = 30 ∨ emaStackScore r = 0) ∧
    (emaStackScore r = 30 ↔ passes_ema_stack_screen (some r) = true) := by
  unfold emaStackScore
  split_ifs with h <;> simp [h]

theorem momentumScore_bounds (r : ScreenRow) :
    0 ≤ momentumScore r ∧ momentumScore r ≤ 25 := by
  unfold momentumScore
  split_ifs <;> omega

theorem volumeScore_cases (r : ScreenRow) :
    volumeScore r = 0 ∨ volumeScore r = 10 ∨ volumeScore r = 15 := by
  unfold volumeScore
  split_ifs <;> omega

theorem fundamentalScore_cases (info : StockInfo) :
    fundamentalScore info = 0 ∨ fundamentalScore info = 5 ∨
    fundamentalScore info = 10 ∨ fundamentalScore info = 15 := by
  unfold fundamentalScore
  split_ifs <;> omega

theorem technicalScore_cases (r : ScreenRow) :
    technicalScore r = 0 ∨ technicalScore r = 5 ∨ technicalScore r = 10 := by
  unfold technicalScore
  split_ifs <;> omega

theorem calculate_screening_score_le (df : Option ScreenRow) (info : StockInfo) :
    (calculate_screening_score df info).score ≤ 95 := by
  cases df with
  | none => simp [calculate_screening_score]
  | some r =>
    have h1 := emaStackScore_cases r
    have h2 := momentumScore_bounds r
    have h3 := volumeScore_cases r
    have h4 := fundamentalScore_cases info
    have h5 := technicalScore_cases r
    simp only [calculate_screening_score]
    omega

/-- The input on which every awarding sub-condition of the screening score
holds simultaneously: stacked EMAs, ADX = 35, Stoch %K = 30, RSI = 50,
volume ratio 2, market cap $200B, average volume 2M. -/
def c6MaxRow : ScreenRow :=
  ⟨100, 90, 80, 70, 60, 50, some 35, some 30, some 30, some 50, some 2, some 1, 100⟩

/-- Fundamental data for the maximising input of C6. -/
def c6MaxInfo : StockInfo := ⟨200000000000, 2000000, 1, 10⟩

/-- C6 counterexample: on the input where every awarding sub-condition holds
at once — the componentwise best case — the components are
`30 + 25 + 15 + 15 + 10` and the total is 95, not 100: the volume component
never exceeds 15 (not the claimed 20), so the claimed maximum raw total 100
is not attainable. -/
theorem c6_screening_score_counterexample :
    passes_ema_stack_screen (some c6MaxRow) = true ∧
    notnaGT c6MaxRow.ADX 20 = true ∧ notnaLT c6MaxRow.Stoch_K 40 = true ∧
    notnaBetween c6MaxRow.RSI 30 70 = true ∧
    notnaGT c6MaxRow.Volume_Ratio 1.5 = true ∧
    c6MaxInfo.market_cap > 100000000000 ∧ c6MaxInfo.avg_volume > 1000000 ∧
    notnaBetween c6MaxRow.RSI 40 60 = true ∧ notnaGT c6MaxRow.ADX 30 = true ∧
    (calculate_screening_score (some c6MaxRow) c6MaxInfo).components =
      some ⟨30, 25, 15, 15, 10⟩ ∧
    (calculate_screening_score (some c6MaxRow) c6MaxInfo).score = 95 ∧
    (calculate_screening_score (some c6MaxRow) c6MaxInfo).score ≠ 100 := by
  norm_num [calculate_screening_score, emaStackScore, momentumScore, volumeScore,
    fundamentalScore, technicalScore, passes_ema_stack_screen, notnaGT, notnaLT,
    notnaBetween, c6MaxRow, c6MaxInfo]

/-- C6 amended: the screening score is the sum of five components — EMA
trend-stack 30 all-or-nothing, momentum up to 25 (independent 10+8+7),
volume 0, 10 or 15 (15 if ratio > 1.5, else 10 if > 1.0), fundamental up
to 15 (10 + 5), technical-strength bonus up to 10 (5 + 5) — and the maximum
raw total attainable over all inputs is 95 (not 100): the volume component
maxes out at 15. -/
theorem c6_screening_score_amended :
    (∀ (r : ScreenRow) (info : StockInfo),
      ∃ c : ScoreComponents,
        (calculate_screening_score (some r) info).components = some c ∧
        (calculate_screening_score (some r) info).score =
          c.ema_stack + c.momentum + c.volume + c.fundamental + c.technical ∧
        (c.ema_stack = 30 ∨ c.ema_stack = 0) ∧
        (c.ema_stack = 30 ↔ passes_ema_stack_screen (some r) = true) ∧
        0 ≤ c.momentum ∧ c.momentum ≤ 25 ∧
        (c.volume = 0 ∨ c.volume = 10 ∨ c.volume = 15) ∧
        (c.fundamental = 0 ∨ c.fundamental = 5 ∨ c.fundamental = 10 ∨
          c.fundamental = 15) ∧
        (c.technical = 0 ∨ c.technical = 5 ∨ c.technical = 10)) ∧
    (∀ (df : Option ScreenRow) (info : StockInfo),
      (calculate_screening_score df info).score ≤ 95) ∧
    (calculate_screening_score (some c6MaxRow) c6MaxInfo).score = 95 := by
  refine ⟨?_, calculate_screening_score_le, ?_⟩
  · intro r info
    refine ⟨⟨emaStackScore r, momentumScore r, volumeScore r,
      fundamentalScore info, technicalScore r⟩, rfl, rfl, ?_⟩
    exact ⟨(emaStackScore_cases r).1, (emaStackScore_cases r).2,
      (momentumScore_bounds r).1, (momentumScore_bounds r).2,
      volumeScore_cases r, fundamentalScore_cases info, technicalScore_cases r⟩
  · norm_num [calculate_screening_score, emaStackScore, momentumScore, volumeScore,
      fundamentalScore, technicalScore, passes_ema_stack_screen, notnaGT, notnaLT,
      notnaBetween, c6MaxRow, c6MaxInfo]

/-! ### Advanced scheduler (`backend/advanced_scheduler.py`) -/

/-- One LLM sentiment signal: the fields of each batch item read by the
aggregation loop of `analyze_sentiment_for_ticker`. -/
structure SentimentSignal where
  sentiment_score : ℚ
  confidence : ℚ
deriving DecidableEq, Repr

/-- The weighted aggregation of `analyze_sentiment_for_ticker`
(lines 317–333): weights are the item confidences;
`(avg_sentiment, avg_confidence)` with both 0 when the total weight is not
positive.  The earlier no-news / no-signals early returns (lines 282–315)
also yield `(0, 0)`, coinciding with the empty-list case here; the
news-fetching and LLM calls themselves are external I/O. -/
def aggregate_sentiment (signals : List SentimentSignal) : ℚ × ℚ :=
  let total_weight := (signals.map (fun s => s.confidence)).sum
  let weighted_sentiment := (signals.map (fun s => s.sentiment_score * s.confidence)).sum
  let weighted_confidence := (signals.map (fun s => s.confidence * s.confidence)).sum
  if total_weight > 0 then
    (weighted_sentiment / total_weight, weighted_confidence / total_weight)
  else (0, 0)

/-- C8: with nonnegative confidences, per-ticker sentiment aggregation
returns score `Σ(sᵢ·cᵢ)/Σcᵢ` and confidence `Σ(cᵢ·cᵢ)/Σcᵢ`; an empty batch
or total weight 0 yields exactly `(0, 0)` through the guarded branch, with
no division performed. -/
theorem c8_sentiment_aggregation (signals : List SentimentSignal)
    (hc : ∀ s ∈ signals, 0 ≤ s.confidence) :
    (signals = [] → aggregate_sentiment signals = (0, 0)) ∧
    ((signals.map (fun s => s.confidence)).sum = 0 →
      aggregate_sentiment signals = (0, 0)) ∧
    ((signals.map (fun s => s.confidence)).sum ≠ 0 →
      aggregate_sentiment signals =
        ((signals.map (fun s => s.sentiment_score * s.confidence)).sum /
            (signals.map (fun s => s.confidence)).sum,
         (signals.map (fun s => s.confidence * s.confidence)).sum /
            (signals.map (fun s => s.confidence)).sum)) := by
  have htw : 0 ≤ (signals.map (fun s => s.confidence)).sum := by
    apply List.sum_nonneg
    intro x hx
    obtain ⟨s, hs, rfl⟩ := List.mem_map.mp hx
    exact hc s hs
  refine ⟨?_, ?_, ?_⟩
  · rintro rfl
    simp [aggregate_sentiment]
  · intro h0
    unfold aggregate_sentiment
    rw [if_neg (by rw [h0]; exact lt_irrefl 0)]
  · intro hne
    unfold aggregate_sentiment
    rw [if_pos (lt_of_le_of_ne htw (Ne.symm hne))]

/-- Witness for C8 at a concrete two-item batch. -/
theorem c8_sentiment_aggregation_witness :
    aggregate_sentiment [⟨1/2, 1/2⟩, ⟨-1/4, 1/4⟩] = (1/4, 5/12) := by
  have h := (c8_sentiment_aggregation [⟨1/2, 1/2⟩, ⟨-1/4, 1/4⟩]
    (by intro s hs; fin_cases hs <;> norm_num)).2.2 (by norm_num)
  rw [h]
  norm_num

/-- The columns of the frame read by `calculate_advanced_predictions`
(lines 156–229): `df.get` fallbacks are modelled by `Option.getD`. -/
structure PredFrame where
  Close : ℚ
  ATR_14 : Option ℚ
  EMA_8 : Option ℚ
  EMA_21 : Option ℚ
  EMA_55 : Option ℚ
  Volume : List ℚ
deriving DecidableEq, Repr

/-- Arithmetic mean of a list (`pandas.Series.mean`). -/
def listMean (l : List ℚ) : ℚ := l.sum / l.length

/-- Slice `series.iloc[-n:]`: the last `n` entries. -/
def lastSlice (n : ℕ) (l : List ℚ) : List ℚ := l.drop (l.length - n)

/-- Lines 212–215, applied per horizon: clamp to `current_price ± max_move`,
then (lines 218–220) round to cents. -/
def clampRound (cp max_move x : ℚ) : ℚ :=
  round2 (max (cp - max_move) (min (cp + max_move) x))

/-- Method calculate_advanced_predictions (lines 156–229).  The three
`np.random.normal(0, ·)` realisations are the `noise` parameters; a negative
volatility factor makes `np.random.normal` raise `ValueError`, which the
enclosing handler converts to `None` prices (`none` here).  The price of each
horizon is clamped to `current_price ± 3·ATR` and then rounded to cents. -/
def calculate_advanced_predictions (df : PredFrame) (signal_type : String)
    (confidence : ℚ) (noise1h noise1d noise1w : ℚ) : Option (ℚ × ℚ × ℚ) :=
  let current_price := df.Close
  let confidence_factor := confidence / 100
  let atr := df.ATR_14.getD (current_price * 0.02)
  let volatility_factor := atr / current_price
  let ema_8 := df.EMA_8.getD current_price
  let ema_21 := df.EMA_21.getD current_price
  let ema_55 := df.EMA_55.getD current_price
  let trend_strength : ℚ :=
    if ema_8 > ema_21 ∧ ema_21 > ema_55 then 0.8
    else if ema_8 < ema_21 ∧ ema_21 < ema_55 then 0.2
    else 0.5
  let volume_ratio := listMean (lastSlice 5 df.Volume) / listMean (lastSlice 20 df.Volume)
  let volume_factor := min 1.5 (max 0.5 volume_ratio)
  if volatility_factor < 0 then none
  else
    let p :=
      if signal_type = ("BULLISH") then
        (current_price * (1 + 0.003 * confidence_factor * trend_strength * volume_factor + noise1h),
         current_price * (1 + 0.015 * confidence_factor * trend_strength * volume_factor + noise1d),
         current_price * (1 + 0.04 * confidence_factor * trend_strength * volume_factor + noise1w))
      else if signal_type = ("BEARISH") then
        (current_price * (1 + -0.003 * confidence_factor * (1 - trend_strength) * volume_factor + noise1h),
         current_price * (1 + -0.015 * confidence_factor * (1 - trend_strength) * volume_factor + noise1d),
         current_price * (1 + -0.04 * confidence_factor * (1 - trend_strength) * volume_factor + noise1w))
      else
        (current_price * (1 + noise1h),
         current_price * (1 + noise1d),
         current_price * (1 + noise1w))
    let max_move := atr * 3
    some
      (clampRound current_price max_move p.1,
       clampRound current_price max_move p.2.1,
       clampRound current_price max_move p.2.2)

theorem clampRound_bounds (cp max_move x : ℚ) (h : 0 ≤ max_move) :
    cp - max_move - 1 / 200 ≤ clampRound cp max_move x ∧
    clampRound cp max_move x ≤ cp + max_move + 1 / 200 := by
  have hy1 : cp - max_move ≤ max (cp - max_move) (min (cp + max_move) x) :=
    le_max_left _ _
  have hy2 : max (cp - max_move) (min (cp + max_move) x) ≤ cp + max_move :=
    max_le (by linarith) (min_le_left _ _)
  have hr := round2_sub_le (max (cp - max_move) (min (cp + max_move) x))
  rw [abs_le] at hr
  unfold clampRound
  constructor <;> linarith [hr.1, hr.2]

theorem clampRound_bounds3 (cp atr x : ℚ) (h : 0 ≤ atr) :
    cp - 3 * atr - 1 / 200 ≤ clampRound cp (atr * 3) x ∧
    clampRound cp (atr * 3) x ≤ cp + 3 * atr + 1 / 200 := by
  have hb := clampRound_bounds cp (atr * 3) x (by linarith)
  constructor <;> linarith [hb.1, hb.2]

theorem calculate_advanced_predictions_neutral (df : PredFrame) (conf n1 n2 n3 : ℚ)
    (h : ¬ df.ATR_14.getD (df.Close * 0.02) / df.Close < 0) :
    calculate_advanced_predictions df ("NEUTRAL") conf n1 n2 n3 =
      some
        (clampRound df.Close (df.ATR_14.getD (df.Close * 0.02) * 3) (df.Close * (1 + n1)),
         clampRound df.Close (df.ATR_14.getD (df.Close * 0.02) * 3) (df.Close * (1 + n2)),
         clampRound df.Close (df.ATR_14.getD (df.Close * 0.02) * 3) (df.Close * (1 + n3))) := by
  unfold calculate_advanced_predictions
  rw [if_neg h]
  simp

/-- C9 counterexample, two concrete frames:
(a) with `Close = 100.004` and `ATR = 0.001` the 1-hour price rounds to
`100.01`, strictly above `Close + 3·ATR = 100.007` — the cent rounding is
applied after the clamp and can leave the interval; (b) with a negative ATR
cell (`Close = -100`, `ATR = -1`) the clamp bounds are inverted and every
returned price (`-97`) exceeds `Close + 3·ATR = -103`. -/
theorem c9_predictions_counterexample :
    calculate_advanced_predictions ⟨100.004, some 0.001, none, none, none, [1]⟩
      ("NEUTRAL") 50 1 0 0 = some (100.01, 100, 100) ∧
    ¬ ((100.01 : ℚ) ≤ 100.004 + 3 * 0.001) ∧
    calculate_advanced_predictions ⟨-100, some (-1), none, none, none, [1]⟩
      ("NEUTRAL") 50 0 0 0 = some (-97, -97, -97) ∧
    ¬ ((-97 : ℚ) ≤ -100 + 3 * (-1)) := by
  refine ⟨?_, by norm_num, ?_, by norm_num⟩ <;>
  · rw [calculate_advanced_predictions_neutral _ _ _ _ _ (by norm_num)]
    norm_num [clampRound, round2, roundHalfEven, Int.fract, Int.floor_eq_iff,
      max_def, min_def]

/-- C9 amended: whenever the effective ATR (the `ATR_14` cell, defaulting to
`2%` of the close) is nonnegative and the function returns prices, each of
the three predicted prices lies within `current_price ± 3·ATR` widened by
the half-cent rounding quantum `1/200`; the pre-rounding values are clamped
to `current_price ± 3·ATR` exactly. -/
theorem c9_predictions_amended (df : PredFrame) (signal_type : String)
    (confidence n1 n2 n3 p1 p2 p3 : ℚ)
    (hatr : 0 ≤ df.ATR_14.getD (df.Close * 0.02))
    (h : calculate_advanced_predictions df signal_type confidence n1 n2 n3 =
      some (p1, p2, p3)) :
    (df.Close - 3 * df.ATR_14.getD (df.Close * 0.02) - 1 / 200 ≤ p1 ∧
      p1 ≤ df.Close + 3 * df.ATR_14.getD (df.Close * 0.02) + 1 / 200) ∧
    (df.Close - 3 * df.ATR_14.getD (df.Close * 0.02) - 1 / 200 ≤ p2 ∧
      p2 ≤ df.Close + 3 * df.ATR_14.getD (df.Close * 0.02) + 1 / 200) ∧
    (df.Close - 3 * df.ATR_14.getD (df.Close * 0.02) - 1 / 200 ≤ p3 ∧
      p3 ≤ df.Close + 3 * df.ATR_14.getD (df.Close * 0.02) + 1 / 200) := by
  simp only [calculate_advanced_predictions] at h
  by_cases hvf : df.ATR_14.getD (df.Close * 0.02) / df.Close < 0
  · rw [if_pos hvf] at h
    exact absurd h (by simp)
  · rw [if_neg hvf, Option.some.injEq, Prod.ext_iff, Prod.ext_iff] at h
    obtain ⟨e1, e2, e3⟩ := h
    subst e1
    subst e2
    subst e3
    exact ⟨clampRound_bounds3 _ _ _ hatr, clampRound_bounds3 _ _ _ hatr,
      clampRound_bounds3 _ _ _ hatr⟩

/-- The frame used by the C9 witness. -/
def c9Frame : PredFrame := ⟨100, some 1, none, none, none, [1]⟩

/-- Witness for C9 (amended) at a concrete frame with ATR 1: the NEUTRAL
prediction with zero noise is `(100, 100, 100)`, within the widened band. -/
theorem c9_predictions_amended_witness :
    calculate_advanced_predictions c9Frame ("NEUTRAL") 0 0 0 0 =
      some (100, 100, 100) ∧
    (c9Frame.Close - 3 * c9Frame.ATR_14.getD (c9Frame.Close * 0.02) - 1 / 200 ≤ 100 ∧
      (100 : ℚ) ≤ c9Frame.Close + 3 * c9Frame.ATR_14.getD (c9Frame.Close * 0.02) + 1 / 200) := by
  have hc : calculate_advanced_predictions c9Frame ("NEUTRAL") 0 0 0 0 =
      some (100, 100, 100) := by
    rw [calculate_advanced_predictions_neutral _ _ _ _ _ (by norm_num [c9Frame])]
    norm_num [c9Frame, clampRound, round2, roundHalfEven, Int.fract, Int.floor_eq_iff,
      max_def, min_def]
  exact ⟨hc, (c9_predictions_amended c9Frame ("NEUTRAL") 0 0 0 0 100 100 100
    (by norm_num [c9Frame]) hc).1⟩

end StockPulse
